import Mathlib

/-!
Shallow embedding of the core capture pipeline of the CAPTURADOR-DE-BOLETOS
repository (src/core/capturador.py, src/core/decodificador.py,
src/core/detector_barras.py, src/core/camara.py).

Images, frames and ROI crops are opaque tokens (`Nat`); the camera, the
symbol-reader library (pyzbar) and the OpenCV image operations are modelled
as environment records whose fields give the result each external call would
return (`none` models both "no result" and a raised-and-caught exception).
Floating-point confidences are modelled as exact rationals; the pixel
arithmetic of the ROI extension (`int(h * 20 / 100)` and `int(w * 0.10)` in
Python, on positive integer pixel sizes) is modelled as integer division.
-/

/-- States of `EstadoCaptura` in src/core/capturador.py. -/
inductive EstadoCaptura where
  | LISTO
  | FRENTE_CAPTURADO
  | REVERSO_CAPTURADO
  | GUARDANDO
  | ERROR
  deriving DecidableEq, Repr

/-- The `_datos_actuales` dictionary of `BoletoCapturador`. -/
structure DatosCaptura where
  imagen_frente : Option Nat
  imagen_reverso : Option Nat
  imagen_roi : Option Nat
  codigo_barras : Option String
  timestamp : Option String
  deriving DecidableEq, Repr

/-- The empty artifact dictionary created by `__init__` and by
`_reiniciar_para_siguiente_captura`. -/
def datosVacios : DatosCaptura :=
  { imagen_frente := none, imagen_reverso := none, imagen_roi := none,
    codigo_barras := none, timestamp := none }

/-- The mutable state of a `BoletoCapturador` instance relevant to the
capture state machine. -/
structure CapturadorState where
  estado : EstadoCaptura
  datos : DatosCaptura
  procesados_totales : Nat
  errores_totales : Nat
  ultima_roi_coords : Option (Int × Int × Int × Int)
  deriving DecidableEq, Repr

/-- The state of a freshly constructed `BoletoCapturador`. -/
def capturadorInicial : CapturadorState :=
  { estado := EstadoCaptura.LISTO, datos := datosVacios,
    procesados_totales := 0, errores_totales := 0, ultima_roi_coords := none }

/-- Python truthiness of an optional string (`if codigo:`): `None` and the
empty string are falsy. -/
def truthyStr : Option String → Bool
  | none => false
  | some s => !s.isEmpty

/-- Environment of one `capturar_frente` call: the frame returned by
`ManejadorCamara.capturar_frame_alta_resolucion` (`none` = no frame). -/
structure EnvFrente where
  frame : Option Nat

/-- `BoletoCapturador.capturar_frente`: stores the high-resolution frame and
moves to `FRENTE_CAPTURADO`; on a missing frame returns failure unchanged.
Returns ((exito, imagen, mensaje), new state). -/
def capturar_frente (s : CapturadorState) (env : EnvFrente) :
    (Bool × Option Nat × String) × CapturadorState :=
  match env.frame with
  | none => ((false, none, "No se pudo obtener imagen de la camara"), s)
  | some frame_alta =>
      ((true, some frame_alta, "Frente capturado"),
        { s with
          estado := EstadoCaptura.FRENTE_CAPTURADO,
          datos := { s.datos with imagen_frente := some frame_alta } })

/-- Environment of one `capturar_reverso` call: the high-resolution frame,
the ROI returned by `DetectorBarrasAutomatico.detectar` (`none` = no
detection), the string returned by `DecodificadorBarras.decodificar` on that
ROI (`none` = decode miss), and the `datetime.now()` timestamp string. -/
structure EnvReverso where
  frame : Option Nat
  deteccion : Option Nat
  codigo : Option String
  timestamp : String

/-- `BoletoCapturador.capturar_reverso`: pulls a frame, detects, decodes;
only when frame, detection and decode all succeed does it store the back
image, ROI crop, code and timestamp and move to `REVERSO_CAPTURADO`.
Note: the source performs no check of the current state. -/
def capturar_reverso (s : CapturadorState) (env : EnvReverso) :
    Bool × CapturadorState :=
  match env.frame with
  | none => (false, s)
  | some frame =>
      match env.deteccion with
      | none => (false, s)
      | some roi =>
          match env.codigo with
          | none => (false, s)
          | some codigo =>
              if codigo.isEmpty then (false, s)
              else
                (true,
                  { s with
                    estado := EstadoCaptura.REVERSO_CAPTURADO,
                    datos :=
                      { s.datos with
                        imagen_reverso := some frame,
                        imagen_roi := some roi,
                        codigo_barras := some codigo,
                        timestamp := some env.timestamp } })

/-- `BoletoCapturador._reiniciar_para_siguiente_captura`: back to `LISTO`,
all artifacts cleared, `ultima_roi_coords` cleared. -/
def reiniciar_para_siguiente_captura (s : CapturadorState) : CapturadorState :=
  { s with estado := EstadoCaptura.LISTO, datos := datosVacios,
           ultima_roi_coords := none }

/-- `BoletoCapturador.reiniciar_captura_actual`: refused (returns `False`,
no mutation) while `GUARDANDO`; otherwise clears everything and succeeds. -/
def reiniciar_captura_actual (s : CapturadorState) : Bool × CapturadorState :=
  if s.estado = EstadoCaptura.GUARDANDO then (false, s)
  else (true, reiniciar_para_siguiente_captura s)

/-- Environment of one `finalizar_captura` call: the result of
`GestorDatos.finalizar_captura` (`none` = the save raised an exception,
`some b` = it returned `b`). -/
structure EnvFinalizar where
  guardar : Option Bool

/-- `BoletoCapturador.finalizar_captura`: enters `GUARDANDO`; with no code
stored it raises internally, the handler catches, sets `ERROR` and returns
`None` without calling the persistence collaborator; a save that raises also
ends in `ERROR`; a save returning `True` moves to `LISTO` (artifacts are NOT
cleared) and returns the artifacts; a save returning `False` returns `None`
leaving the state `GUARDANDO`.  The third component records whether the
persistence collaborator was invoked. -/
def finalizar_captura (s : CapturadorState) (env : EnvFinalizar) :
    Option DatosCaptura × CapturadorState × Bool :=
  let s1 : CapturadorState := { s with estado := EstadoCaptura.GUARDANDO }
  if truthyStr s1.datos.codigo_barras = false then
    (none, { s1 with estado := EstadoCaptura.ERROR }, false)
  else
    match env.guardar with
    | none => (none, { s1 with estado := EstadoCaptura.ERROR }, true)
    | some true =>
        (some s1.datos,
          { s1 with
            estado := EstadoCaptura.LISTO,
            procesados_totales := s1.procesados_totales + 1 }, true)
    | some false => (none, s1, true)

/-! ## Decoder (src/core/decodificador.py) -/

/-- The five preprocessed variants built by
`DecodificadorBarras._preprocesar_variantes`, in source order. -/
inductive Variante where
  | gris
  | clahe
  | bn
  | sharpen
  | invertida
  deriving DecidableEq, Repr

/-- `_preprocesar_variantes` returns the list
[gris, clahe.apply(gris), bn, filter2D(gris), bitwise_not(bn)]. -/
def preprocesar_variantes : List Variante :=
  [Variante.gris, Variante.clahe, Variante.bn, Variante.sharpen,
   Variante.invertida]

/-- Python's `str.strip()`: drop leading and trailing whitespace (modelled
structurally over the character list so that it is kernel-evaluable). -/
def strip (s : String) : String :=
  String.mk
    (((s.data.dropWhile Char.isWhitespace).reverse.dropWhile
      Char.isWhitespace).reverse)

/-- `DecodificadorBarras._validar_codigo`. -/
def validar_codigo (codigo : String) : Bool := 8 ≤ codigo.length

/-- Success/failure counters of `DecodificadorBarras`. -/
structure DecoState where
  exitos : Nat
  fallos : Nat
  deriving DecidableEq, Repr

/-- Environment of one `decodificar` call: what `pyzbar.decode` yields on
each preprocessed variant — `none` models both an empty result list and a
raised-and-caught exception; `some s` is `resultados[0].data.decode("utf-8")`. -/
structure EnvDecodificador where
  lee : Variante → Option String

/-- The `for` loop body of `decodificar`: try each variant in order, return
the first stripped text passing `_validar_codigo`, otherwise move on
(a too-short read also moves on, matching the source's missing `else`). -/
def decodificarLista (env : EnvDecodificador) : List Variante → Option String
  | [] => none
  | v :: resto =>
      match env.lee v with
      | some s =>
          let codigo_limpio := strip s
          if validar_codigo codigo_limpio then some codigo_limpio
          else decodificarLista env resto
      | none => decodificarLista env resto

/-- `DecodificadorBarras.decodificar`: `None` ROI returns `None` at once with
no counter change; otherwise the variant loop runs, bumping `exitos` on a
valid read and `fallos` when every variant misses. -/
def decodificar (st : DecoState) (roi : Option Nat) (env : EnvDecodificador) :
    Option String × DecoState :=
  match roi with
  | none => (none, st)
  | some _ =>
      match decodificarLista env preprocesar_variantes with
      | some codigo => (some codigo, { st with exitos := st.exitos + 1 })
      | none => (none, { st with fallos := st.fallos + 1 })

/-- Spec-side description of the decoder ("returns the first decoded text
whose trimmed length is ≥ 8, over the five variants in fixed order"), for
comparison with `decodificar`. -/
def primeraLecturaValida (env : EnvDecodificador) : Option String :=
  preprocesar_variantes.findSome? fun v =>
    match env.lee v with
    | some s => if 8 ≤ (strip s).length then some (strip s) else none
    | none => none

/-! ## Region detector (src/core/detector_barras.py) -/

/-- The detection strategies (`EstrategiaDeteccion`). -/
inductive EstrategiaDeteccion where
  | PYZBAR_DIRECTO
  | GRADIENTE_VERTICAL
  | PROYECCION_HORIZONTAL
  | CONTORNOS_MORFOLOGICOS
  deriving DecidableEq, Repr

/-- A detection result (`DeteccionBarras`), with the ROI crop and timing
dropped and the float confidence modelled as an exact rational. -/
structure DeteccionBarras where
  coordenadas : Int × Int × Int × Int
  estrategia_usada : EstrategiaDeteccion
  confianza : ℚ
  deriving DecidableEq, Repr

/-- `self.min_confianza = 0.4`. -/
def min_confianza : ℚ := 2 / 5

/-- `DetectorBarrasAutomatico._extender_roi_con_texto`.  Pixel sizes are
integers; `int(h * 100 / 100)`, `int(h * 20 / 100)` and `int(w * 0.10)` on
positive `h`, `w` equal the integer divisions written here. -/
def extender_roi_con_texto (coordenadas : Int × Int × Int × Int)
    (alto ancho : Int) : Int × Int × Int × Int :=
  let (x, y, w, h) := coordenadas
  if h ≤ 0 ∨ w ≤ 0 then coordenadas
  else
    let extension_px := h * 100 / 100
    let margen_superior_px := h * 20 / 100
    let y_ext := max 0 (y - margen_superior_px)
    let h_ext := h + extension_px + margen_superior_px
    let alto_disponible := alto - y_ext
    let h_final := min h_ext alto_disponible
    let margen_lateral_px := w * 10 / 100
    let x_ext := max 0 (x - margen_lateral_px)
    let w_ext := min (ancho - x_ext) (w + 2 * margen_lateral_px)
    (x_ext, y_ext, w_ext, h_final)

/-- Success/failure counters of `DetectorBarrasAutomatico`. -/
structure DetectorStats where
  detecciones_exitosas : Nat
  detecciones_fallidas : Nat
  deriving DecidableEq, Repr

/-- Environment of one detection call.  The OpenCV/pyzbar computations inside
each strategy are opaque; each field records what the external computation
would yield on the given image:
* `imagenVacia`: `imagen is None or imagen.size == 0`;
* `pyzbarPoligono`: polygon points of `decode(imagen)[0]` (`none` = no symbol
  or a raised-and-caught exception);
* `gradientesMejor`: best connected-component region with its score after the
  filter cascade of `_detectar_con_gradientes` (`none` = no candidate or
  exception);
* `proyeccionesResultado`: the first accepted segment of
  `_detectar_con_proyecciones` with its computed confidence;
* `contornosMejor`: best contour of `_detectar_con_contornos` with its
  composite confidence. -/
structure EnvDetector where
  imagenAlto : Int
  imagenAncho : Int
  imagenVacia : Bool
  pyzbarPoligono : Option (List (Int × Int))
  gradientesMejor : Option ((Int × Int × Int × Int) × ℚ)
  proyeccionesResultado : Option ((Int × Int × Int × Int) × ℚ)
  contornosMejor : Option ((Int × Int × Int × Int) × ℚ)

/-- `DetectorBarrasAutomatico._detectar_con_pyzbar`: bounding box of the
symbol polygon, ROI extension, minimum-size gate (`min_ancho = 100`,
`min_alto = 30`), fixed confidence 0.95. -/
def detectar_con_pyzbar (env : EnvDetector) : Option DeteccionBarras :=
  match env.pyzbarPoligono with
  | none => none
  | some puntos =>
      let xs := puntos.map Prod.fst
      let ys := puntos.map Prod.snd
      match xs.min?, xs.max?, ys.min?, ys.max? with
      | some xmin, some xmax, some ymin, some ymax =>
          let x := max 0 xmin
          let y := max 0 ymin
          let w := xmax - x
          let h := ymax - y
          let ext := extender_roi_con_texto (x, y, w, h)
            env.imagenAlto env.imagenAncho
          if 100 ≤ ext.2.2.1 ∧ 30 ≤ ext.2.2.2 then
            some { coordenadas := ext,
                   estrategia_usada := EstrategiaDeteccion.PYZBAR_DIRECTO,
                   confianza := 19 / 20 }
          else none
      | _, _, _, _ => none

/-- `DetectorBarrasAutomatico._detectar_con_gradientes`: the best-scoring
candidate is returned, ROI-extended, only past the internal strict
`mejor_puntaje > min_confianza` gate. -/
def detectar_con_gradientes (env : EnvDetector) : Option DeteccionBarras :=
  match env.gradientesMejor with
  | none => none
  | some (c, puntaje) =>
      if min_confianza < puntaje then
        some { coordenadas := extender_roi_con_texto c
                 env.imagenAlto env.imagenAncho,
               estrategia_usada := EstrategiaDeteccion.GRADIENTE_VERTICAL,
               confianza := puntaje }
      else none

/-- `DetectorBarrasAutomatico._detectar_con_proyecciones`: the first accepted
segment is returned ROI-extended with its computed confidence (the strategy
has no internal confidence gate). -/
def detectar_con_proyecciones (env : EnvDetector) : Option DeteccionBarras :=
  match env.proyeccionesResultado with
  | none => none
  | some (c, confianza) =>
      some { coordenadas := extender_roi_con_texto c
               env.imagenAlto env.imagenAncho,
             estrategia_usada := EstrategiaDeteccion.PROYECCION_HORIZONTAL,
             confianza := confianza }

/-- `DetectorBarrasAutomatico._detectar_con_contornos`: best composite
candidate, past the internal strict `mejor_confianza > min_confianza` gate. -/
def detectar_con_contornos (env : EnvDetector) : Option DeteccionBarras :=
  match env.contornosMejor with
  | none => none
  | some (c, confianza) =>
      if min_confianza < confianza then
        some { coordenadas := extender_roi_con_texto c
                 env.imagenAlto env.imagenAncho,
               estrategia_usada := EstrategiaDeteccion.CONTORNOS_MORFOLOGICOS,
               confianza := confianza }
      else none

/-- Bump `detecciones_exitosas` (the `self.detecciones_exitosas += 1` before
each successful return of `detectar`). -/
def bumpExito (st : DetectorStats) : DetectorStats :=
  { st with detecciones_exitosas := st.detecciones_exitosas + 1 }

/-- Strategy 4 step of `detectar` (contours, then the all-failed epilogue). -/
def detectarDesdeContornos (env : EnvDetector) (st : DetectorStats) :
    Option DeteccionBarras × DetectorStats :=
  match detectar_con_contornos env with
  | some d =>
      if min_confianza ≤ d.confianza then (some d, bumpExito st)
      else (none,
        { st with detecciones_fallidas := st.detecciones_fallidas + 1 })
  | none =>
      (none, { st with detecciones_fallidas := st.detecciones_fallidas + 1 })

/-- Strategy 3 step of `detectar` (projections, falling through to 4). -/
def detectarDesdeProyecciones (env : EnvDetector) (st : DetectorStats) :
    Option DeteccionBarras × DetectorStats :=
  match detectar_con_proyecciones env with
  | some d =>
      if min_confianza ≤ d.confianza then (some d, bumpExito st)
      else detectarDesdeContornos env st
  | none => detectarDesdeContornos env st

/-- Strategy 2 step of `detectar` (gradients, falling through to 3). -/
def detectarDesdeGradientes (env : EnvDetector) (st : DetectorStats) :
    Option DeteccionBarras × DetectorStats :=
  match detectar_con_gradientes env with
  | some d =>
      if min_confianza ≤ d.confianza then (some d, bumpExito st)
      else detectarDesdeProyecciones env st
  | none => detectarDesdeProyecciones env st

/-- `DetectorBarrasAutomatico.detectar`: empty image returns `None` (no
counter change); a pyzbar hit is returned as-is; otherwise gradients,
projections, contours in order, each accepted only at
`confianza >= min_confianza`; all-failed bumps `detecciones_fallidas`. -/
def detectar (env : EnvDetector) (st : DetectorStats) :
    Option DeteccionBarras × DetectorStats :=
  if env.imagenVacia then (none, st)
  else
    match detectar_con_pyzbar env with
    | some d => (some d, bumpExito st)
    | none => detectarDesdeGradientes env st

/-- `DetectorBarrasAutomatico.detectar_rapido`: pyzbar, then gradients at the
relaxed acceptance `confianza >= 0.3`; no other strategy, no counters. -/
def detectar_rapido (env : EnvDetector) : Option DeteccionBarras :=
  match detectar_con_pyzbar env with
  | some d => some d
  | none =>
      match detectar_con_gradientes env with
      | some d => if (3 : ℚ) / 10 ≤ d.confianza then some d else none
      | none => none

/-- The per-strategy acceptance check of `detectar`: the strategy's result
is kept only when its confidence clears `min_confianza`. -/
def filtroUmbral (env : EnvDetector)
    (estrategia : EnvDetector → Option DeteccionBarras) :
    Option DeteccionBarras :=
  match estrategia env with
  | some d => if min_confianza ≤ d.confianza then some d else none
  | none => none

/-- Spec-side description of the full cascade ("fixed order DirectSymbolScan,
VerticalGradient, HorizontalProjection, MorphologicalContour, short-circuit
on the first success; a DirectSymbolScan hit is authoritative; any other
result only above the minimum-confidence threshold"), for comparison with
`detectar`. -/
def detectarSpec (env : EnvDetector) : Option DeteccionBarras :=
  if env.imagenVacia then none
  else
    match detectar_con_pyzbar env with
    | some d => some d
    | none =>
        [detectar_con_gradientes, detectar_con_proyecciones,
         detectar_con_contornos].findSome? (filtroUmbral env)

/-! ## Camera observers (src/core/camara.py) -/

/-- An observer callback: receives the preview frame, either returns normally
or raises (`Except.error`). -/
def ObserverCallback : Type := Nat → Except String Unit

/-- What `_notificar_observers` does with one observer: the `try/except`
around `observer(frame)` turns a raised exception into a logged error. -/
inductive ResultadoObserver where
  | ok
  | errorLogueado (mensaje : String)
  deriving DecidableEq, Repr

/-- One protected invocation inside the loop of `_notificar_observers`. -/
def invocar_observer (o : ObserverCallback) (frame : Nat) : ResultadoObserver :=
  match o frame with
  | Except.ok _ => ResultadoObserver.ok
  | Except.error e => ResultadoObserver.errorLogueado e

/-- `ManejadorCamara._notificar_observers`: iterate over the copied observer
list in registration order, invoking each callback under its own
`try/except`; the result is the trace of invocations. -/
def notificar_observers (observers : List ObserverCallback) (frame : Nat) :
    List ResultadoObserver :=
  match observers with
  | [] => []
  | o :: resto => invocar_observer o frame :: notificar_observers resto frame

/-! ## Concrete example data used by witnesses and counterexamples -/

/-- A camera that yields frame 1 for the front capture. -/
def envFrenteEj : EnvFrente := { frame := some 1 }

/-- A back-capture environment in which the camera, the detector and the
decoder all succeed. -/
def envReversoExito : EnvReverso :=
  { frame := some 2, deteccion := some 3, codigo := some "12345678",
    timestamp := "20240101_120000" }

/-- A back-capture environment in which the camera yields no frame. -/
def envReversoFallo : EnvReverso :=
  { frame := none, deteccion := none, codigo := none,
    timestamp := "20240101_120000" }

/-- A persistence collaborator whose save succeeds. -/
def envGuardarOk : EnvFinalizar := { guardar := some true }

/-- State after `capturar_frente` on a fresh orchestrator. -/
def estadoTrasFrente : CapturadorState :=
  (capturar_frente capturadorInicial envFrenteEj).2

/-- State after the successful `capturar_reverso` that follows. -/
def estadoTrasReverso : CapturadorState :=
  (capturar_reverso estadoTrasFrente envReversoExito).2

/-- Result of the successful `finalizar_captura` closing the cycle. -/
def resultadoFinalizar : Option DatosCaptura × CapturadorState × Bool :=
  finalizar_captura estadoTrasReverso envGuardarOk

/-- An orchestrator sitting in `ERROR` with populated artifacts. -/
def estadoErrorEj : CapturadorState :=
  { estado := EstadoCaptura.ERROR,
    datos := { imagen_frente := some 1, imagen_reverso := some 2,
               imagen_roi := some 3, codigo_barras := some "12345678",
               timestamp := some "20240101_120000" },
    procesados_totales := 5, errores_totales := 7,
    ultima_roi_coords := some (1, 2, 3, 4) }

/-- An orchestrator sitting in `GUARDANDO`. -/
def estadoGuardandoEj : CapturadorState :=
  { estadoErrorEj with estado := EstadoCaptura.GUARDANDO }

/-- A symbol reader that reads text only off the grayscale variant. -/
def envLecturaBuena : EnvDecodificador :=
  { lee := fun v =>
      match v with
      | Variante.gris => some " 12345678 "
      | _ => none }

/-- A symbol reader that reads nothing on any variant (pure noise input). -/
def envLecturaRuido : EnvDecodificador := { lee := fun _ => none }

/-- A detector environment in which pyzbar locates a symbol polygon on a
1000x1000 image. -/
def envDetectorPyzbar : EnvDetector :=
  { imagenAlto := 1000, imagenAncho := 1000, imagenVacia := false,
    pyzbarPoligono := some [(10, 50), (200, 50), (200, 100), (10, 100)],
    gradientesMejor := none, proyeccionesResultado := none,
    contornosMejor := none }

/-- The detection `envDetectorPyzbar` must produce: bounding box (10, 50,
190, 50) of the polygon, extended to (0, 40, 228, 110), strategy
`PYZBAR_DIRECTO`, confidence 0.95. -/
def dPyzbarEj : DeteccionBarras :=
  { coordenadas := (0, 40, 228, 110),
    estrategia_usada := EstrategiaDeteccion.PYZBAR_DIRECTO,
    confianza := 19 / 20 }

/-- An observer that returns normally. -/
def obsOkEj : ObserverCallback := fun _ => Except.ok ()

/-- An observer that raises. -/
def obsErrorEj : ObserverCallback := fun _ => Except.error "fallo"

/-! ## Helper lemmas (shared) -/

/-- Full characterization of `capturar_reverso`, for any starting state:
failure leaves the state untouched, success happens exactly when frame,
detection and decode all succeed, and then the back artifacts are stored and
the state moves to `REVERSO_CAPTURADO`. -/
theorem capturar_reverso_caracterizacion (s : CapturadorState)
    (env : EnvReverso) :
    ((capturar_reverso s env).1 = false → (capturar_reverso s env).2 = s) ∧
    ((capturar_reverso s env).1 = true ↔
      env.frame ≠ none ∧ env.deteccion ≠ none ∧ truthyStr env.codigo = true) ∧
    ((capturar_reverso s env).1 = true →
      (capturar_reverso s env).2 =
        { s with
          estado := EstadoCaptura.REVERSO_CAPTURADO,
          datos :=
            { s.datos with
              imagen_reverso := env.frame,
              imagen_roi := env.deteccion,
              codigo_barras := env.codigo,
              timestamp := some env.timestamp } }) := by
  rcases env with ⟨f, d, c, t⟩
  rcases f with _ | f <;> rcases d with _ | d <;> rcases c with _ | c <;>
    simp [capturar_reverso, truthyStr]
  by_cases hc : c.isEmpty <;> simp [capturar_reverso, hc]



/-- First-valid-read equation: the decode loop equals a first-hit search over
the variant list. -/
theorem decodificarLista_eq_findSome (env : EnvDecodificador)
    (l : List Variante) :
    decodificarLista env l = l.findSome? fun v =>
      match env.lee v with
      | some s => if 8 ≤ (strip s).length then some (strip s) else none
      | none => none := by
  induction l with
  | nil => rfl
  | cons v resto ih =>
      simp only [decodificarLista, List.findSome?]
      cases env.lee v with
      | none => exact ih
      | some s =>
          by_cases h8 : 8 ≤ (strip s).length <;>
            simp [validar_codigo, h8, ih]

/-- Any text the decode loop returns passed the length guard. -/
theorem decodificarLista_longitud (env : EnvDecodificador) (l : List Variante)
    (c : String) (h : decodificarLista env l = some c) : 8 ≤ c.length := by
  induction l with
  | nil => simp [decodificarLista] at h
  | cons v resto ih =>
      unfold decodificarLista at h
      revert h
      cases env.lee v with
      | none => exact ih
      | some s =>
          intro h
          dsimp only at h
          by_cases h8 : validar_codigo (strip s) = true
          · rw [if_pos h8] at h
            cases h
            simpa [validar_codigo] using h8
          · rw [if_neg h8] at h
            exact ih h

/-! ## Claim theorems -/

/-- C1 (counterexample): the claim "in state Ready, capturar_reverso is
rejected without side effects" is false: on a fresh orchestrator in `LISTO`,
with the camera, detector and decoder all succeeding, `capturar_reverso`
returns success, moves the state to `REVERSO_CAPTURADO` and modifies the
capture artifacts. -/
theorem capturar_reverso_listo_no_rechazado :
    capturadorInicial.estado = EstadoCaptura.LISTO ∧
    (capturar_reverso capturadorInicial envReversoExito).1 = true ∧
    (capturar_reverso capturadorInicial envReversoExito).2.estado =
      EstadoCaptura.REVERSO_CAPTURADO ∧
    (capturar_reverso capturadorInicial envReversoExito).2.datos ≠
      capturadorInicial.datos := by decide

/-- C1 (amended): `capturar_reverso` performs no state check.  From `Ready`
it is rejected without side effects exactly when the camera frame is missing
or detection or decoding fails; when all three succeed it stores the back
artifacts and moves to `REVERSO_CAPTURADO` even from `Ready`. -/
theorem capturar_reverso_listo_sin_guarda (s : CapturadorState)
    (env : EnvReverso) (h : s.estado = EstadoCaptura.LISTO) :
    ((capturar_reverso s env).1 = false → (capturar_reverso s env).2 = s) ∧
    ((capturar_reverso s env).1 = true ↔
      env.frame ≠ none ∧ env.deteccion ≠ none ∧ truthyStr env.codigo = true) ∧
    ((capturar_reverso s env).1 = true →
      (capturar_reverso s env).2.estado = EstadoCaptura.REVERSO_CAPTURADO ∧
      (capturar_reverso s env).2.datos.imagen_reverso = env.frame ∧
      (capturar_reverso s env).2.datos.imagen_roi = env.deteccion ∧
      (capturar_reverso s env).2.datos.codigo_barras = env.codigo ∧
      (capturar_reverso s env).2.datos.timestamp = some env.timestamp) := by
  obtain ⟨h1, h2, h3⟩ := capturar_reverso_caracterizacion s env
  refine ⟨h1, h2, fun hx => ?_⟩
  rw [h3 hx]
  simp

/-- Witness for the amended C1 theorem at a concrete failing environment. -/
theorem capturar_reverso_listo_sin_guarda_witness :
    capturadorInicial.estado = EstadoCaptura.LISTO ∧
    ((capturar_reverso capturadorInicial envReversoFallo).1 = false →
      (capturar_reverso capturadorInicial envReversoFallo).2 =
        capturadorInicial) :=
  ⟨rfl,
    (capturar_reverso_listo_sin_guarda capturadorInicial envReversoFallo
      rfl).1⟩

/-- C2 (counterexample): the claim "a completed full capture cycle leaves all
artifacts cleared (None)" is false: running
`capturar_frente`, `capturar_reverso`, then a successful `finalizar_captura`
on a fresh orchestrator returns the state to `LISTO` but the artifacts keep
their captured values. -/
theorem ciclo_completo_no_limpia :
    estadoTrasFrente.estado = EstadoCaptura.FRENTE_CAPTURADO ∧
    estadoTrasReverso.estado = EstadoCaptura.REVERSO_CAPTURADO ∧
    resultadoFinalizar.1.isSome = true ∧
    resultadoFinalizar.2.1.estado = EstadoCaptura.LISTO ∧
    resultadoFinalizar.2.1.datos.imagen_frente = some 1 ∧
    resultadoFinalizar.2.1.datos.imagen_reverso = some 2 ∧
    resultadoFinalizar.2.1.datos.imagen_roi = some 3 ∧
    resultadoFinalizar.2.1.datos.codigo_barras = some "12345678" ∧
    resultadoFinalizar.2.1.datos.timestamp = some "20240101_120000" := by
  decide

/-- C2 (amended): a completed full cycle
`Ready → FrontCaptured → BackCaptured → Saving → Ready` returns the state to
`LISTO`, but the artifacts are NOT cleared: they keep the captured values
(and are returned to the caller); they become empty only through
`reiniciar_captura_actual` (reset). -/
theorem ciclo_completo_conserva_artefactos (s : CapturadorState)
    (f r roi : Nat) (c ts : String) (hc : c.isEmpty = false) :
    ((capturar_frente s { frame := some f }).2.estado =
      EstadoCaptura.FRENTE_CAPTURADO) ∧
    ((capturar_reverso (capturar_frente s { frame := some f }).2
        { frame := some r, deteccion := some roi, codigo := some c,
          timestamp := ts }).2.estado = EstadoCaptura.REVERSO_CAPTURADO) ∧
    ((finalizar_captura
        (capturar_reverso (capturar_frente s { frame := some f }).2
          { frame := some r, deteccion := some roi, codigo := some c,
            timestamp := ts }).2 { guardar := some true }).2.1.estado =
      EstadoCaptura.LISTO) ∧
    ((finalizar_captura
        (capturar_reverso (capturar_frente s { frame := some f }).2
          { frame := some r, deteccion := some roi, codigo := some c,
            timestamp := ts }).2 { guardar := some true }).2.1.datos =
      { imagen_frente := some f, imagen_reverso := some r,
        imagen_roi := some roi, codigo_barras := some c,
        timestamp := some ts }) ∧
    ((reiniciar_captura_actual
        (finalizar_captura
          (capturar_reverso (capturar_frente s { frame := some f }).2
            { frame := some r, deteccion := some roi, codigo := some c,
              timestamp := ts }).2 { guardar := some true }).2.1).2.datos =
      datosVacios) := by
  simp [capturar_frente, capturar_reverso, finalizar_captura, truthyStr, hc,
    reiniciar_captura_actual, reiniciar_para_siguiente_captura]

/-- Witness for the amended C2 theorem at concrete inputs. -/
theorem ciclo_completo_conserva_artefactos_witness :
    ("12345678" : String).isEmpty = false ∧
    ((finalizar_captura
        (capturar_reverso (capturar_frente capturadorInicial
            { frame := some 1 }).2
          { frame := some 2, deteccion := some 3, codigo := some "12345678",
            timestamp := "20240101_120000" }).2
        { guardar := some true }).2.1.datos =
      { imagen_frente := some 1, imagen_reverso := some 2,
        imagen_roi := some 3, codigo_barras := some "12345678",
        timestamp := some "20240101_120000" }) :=
  ⟨by decide,
    (ciclo_completo_conserva_artefactos capturadorInicial 1 2 3 "12345678"
      "20240101_120000" (by decide)).2.2.2.1⟩

/-- C6: from `FRENTE_CAPTURADO`, a `capturar_reverso` that fails at any stage
(no frame, no detection, or decode miss) returns `False` and changes nothing
— the state stays `FRENTE_CAPTURADO` and no artifact is stored; only when
detection and decoding both succeed are the back image, ROI crop, code and
timestamp stored and the state moved to `REVERSO_CAPTURADO`. -/
theorem capturar_reverso_frente_atomico (s : CapturadorState)
    (env : EnvReverso) (h : s.estado = EstadoCaptura.FRENTE_CAPTURADO) :
    ((env.frame = none ∨ env.deteccion = none ∨ truthyStr env.codigo = false) →
      capturar_reverso s env = (false, s)) ∧
    ((capturar_reverso s env).1 = false →
      (capturar_reverso s env).2 = s ∧
      (capturar_reverso s env).2.estado = EstadoCaptura.FRENTE_CAPTURADO) ∧
    ((capturar_reverso s env).1 = true →
      env.frame ≠ none ∧ env.deteccion ≠ none ∧ truthyStr env.codigo = true ∧
      (capturar_reverso s env).2 =
        { s with
          estado := EstadoCaptura.REVERSO_CAPTURADO,
          datos :=
            { s.datos with
              imagen_reverso := env.frame,
              imagen_roi := env.deteccion,
              codigo_barras := env.codigo,
              timestamp := some env.timestamp } }) := by
  obtain ⟨h1, h2, h3⟩ := capturar_reverso_caracterizacion s env
  refine ⟨fun hf => ?_, fun hf => ⟨h1 hf, by rw [h1 hf]; exact h⟩,
    fun ht => ?_⟩
  · have : ¬(capturar_reverso s env).1 = true := by
      rw [h2]
      rcases hf with hf | hf | hf <;> simp [hf]
    have hfalse : (capturar_reverso s env).1 = false := by
      cases hb : (capturar_reverso s env).1
      · rfl
      · exact absurd hb this
    have := h1 hfalse
    cases he : capturar_reverso s env
    rw [he] at hfalse this
    simp at hfalse this
    rw [hfalse, this]
  · obtain ⟨e1, e2, e3⟩ := h2.mp ht
    exact ⟨e1, e2, e3, h3 ht⟩

/-- Witness for the C6 theorem at a concrete state and environment. -/
theorem capturar_reverso_frente_atomico_witness :
    estadoTrasFrente.estado = EstadoCaptura.FRENTE_CAPTURADO ∧
    ((envReversoFallo.frame = none ∨ envReversoFallo.deteccion = none ∨
        truthyStr envReversoFallo.codigo = false) →
      capturar_reverso estadoTrasFrente envReversoFallo =
        (false, estadoTrasFrente)) :=
  ⟨by decide,
    (capturar_reverso_frente_atomico estadoTrasFrente envReversoFallo
      (by decide)).1⟩

/-- C7: `reiniciar_captura_actual` is refused while `GUARDANDO` (returns
`False`, state unchanged); from `FRENTE_CAPTURADO`, `REVERSO_CAPTURADO` and
`ERROR` it succeeds, returns to `LISTO` and clears every artifact. -/
theorem reiniciar_rechaza_guardando (s : CapturadorState) :
    (s.estado = EstadoCaptura.GUARDANDO →
      reiniciar_captura_actual s = (false, s)) ∧
    (s.estado = EstadoCaptura.FRENTE_CAPTURADO ∨
        s.estado = EstadoCaptura.REVERSO_CAPTURADO ∨
        s.estado = EstadoCaptura.ERROR →
      (reiniciar_captura_actual s).1 = true ∧
      (reiniciar_captura_actual s).2.estado = EstadoCaptura.LISTO ∧
      (reiniciar_captura_actual s).2.datos = datosVacios ∧
      (reiniciar_captura_actual s).2.procesados_totales =
        s.procesados_totales ∧
      (reiniciar_captura_actual s).2.errores_totales = s.errores_totales) := by
  constructor
  · intro h
    simp [reiniciar_captura_actual, h]
  · intro h
    have hne : ¬s.estado = EstadoCaptura.GUARDANDO := by
      rcases h with h | h | h <;> simp [h]
    simp [reiniciar_captura_actual, hne, reiniciar_para_siguiente_captura]

/-- Witness for the C7 theorem: refusal in `GUARDANDO` and success from
`ERROR` at concrete states. -/
theorem reiniciar_rechaza_guardando_witness :
    (estadoGuardandoEj.estado = EstadoCaptura.GUARDANDO →
      reiniciar_captura_actual estadoGuardandoEj =
        (false, estadoGuardandoEj)) ∧
    ((reiniciar_captura_actual estadoErrorEj).1 = true ∧
      (reiniciar_captura_actual estadoErrorEj).2.estado =
        EstadoCaptura.LISTO ∧
      (reiniciar_captura_actual estadoErrorEj).2.datos = datosVacios ∧
      (reiniciar_captura_actual estadoErrorEj).2.procesados_totales =
        estadoErrorEj.procesados_totales ∧
      (reiniciar_captura_actual estadoErrorEj).2.errores_totales =
        estadoErrorEj.errores_totales) :=
  ⟨(reiniciar_rechaza_guardando estadoGuardandoEj).1,
    (reiniciar_rechaza_guardando estadoErrorEj).2 (Or.inr (Or.inr rfl))⟩

/-- C9: when no decoded code is stored (`codigo_barras` is `None` or empty),
`finalizar_captura` does not raise to its caller: it returns `None`, ends in
state `ERROR` (after transiently entering `GUARDANDO`), and never invokes
the persistence collaborator (third component `false`). -/
theorem finalizar_sin_codigo_error (s : CapturadorState) (env : EnvFinalizar)
    (h : truthyStr s.datos.codigo_barras = false) :
    finalizar_captura s env =
      (none, { s with estado := EstadoCaptura.ERROR }, false) := by
  simp [finalizar_captura, h]

/-- Witness for the C9 theorem on a fresh orchestrator (no code stored). -/
theorem finalizar_sin_codigo_error_witness :
    truthyStr capturadorInicial.datos.codigo_barras = false ∧
    finalizar_captura capturadorInicial envGuardarOk =
      (none, { capturadorInicial with estado := EstadoCaptura.ERROR },
        false) :=
  ⟨rfl, finalizar_sin_codigo_error capturadorInicial envGuardarOk rfl⟩

/-- C4: `decodificar` tries exactly the five variants
grayscale, CLAHE, Otsu binary, sharpened, inverted binary — in that fixed
order — and returns the first trimmed read of length ≥ 8 (first-hit search
`primeraLecturaValida`); when no variant qualifies it returns `None` (the
function is total, so no exception escapes) and bumps `fallos`, otherwise it
bumps `exitos`; any returned text has length ≥ 8. -/
theorem decodificar_cinco_variantes (st : DecoState) (r : Nat)
    (env : EnvDecodificador) :
    preprocesar_variantes =
      [Variante.gris, Variante.clahe, Variante.bn, Variante.sharpen,
        Variante.invertida] ∧
    (decodificar st (some r) env).1 = primeraLecturaValida env ∧
    ((decodificar st (some r) env).2 =
      match primeraLecturaValida env with
      | some _ => { st with exitos := st.exitos + 1 }
      | none => { st with fallos := st.fallos + 1 }) ∧
    (∀ c, (decodificar st (some r) env).1 = some c → 8 ≤ c.length) := by
  have hfind : decodificarLista env preprocesar_variantes =
      primeraLecturaValida env :=
    decodificarLista_eq_findSome env preprocesar_variantes
  refine ⟨rfl, ?_, ?_, ?_⟩
  · unfold decodificar
    rw [hfind]
    cases primeraLecturaValida env <;> rfl
  · unfold decodificar
    rw [hfind]
    cases primeraLecturaValida env <;> rfl
  · intro c hc
    have h1 : (decodificar st (some r) env).1 =
        decodificarLista env preprocesar_variantes := by
      unfold decodificar
      cases decodificarLista env preprocesar_variantes <;> rfl
    rw [h1] at hc
    exact decodificarLista_longitud env preprocesar_variantes c hc

/-- Witness for the C4 theorem: a reader succeeding on the grayscale variant
with text " 12345678 " yields the trimmed "12345678". -/
theorem decodificar_cinco_variantes_witness :
    (decodificar { exitos := 0, fallos := 0 } (some 1) envLecturaBuena).1 =
      some "12345678" ∧ 8 ≤ ("12345678" : String).length :=
  ⟨by decide,
    (decodificar_cinco_variantes { exitos := 0, fallos := 0 } 1
      envLecturaBuena).2.2.2 "12345678" (by decide)⟩

/-- C10: `decodificar` on a `None` region returns `None` immediately with the
success/failure counters untouched, while a real decode miss (a region on
which every variant fails) increments `fallos` — so the two outcomes are
distinguishable in the statistics. -/
theorem decodificar_none_sin_contadores (st : DecoState)
    (env : EnvDecodificador) (r : Nat) :
    decodificar st none env = (none, st) ∧
    ((decodificar st (some r) env).1 = none →
      (decodificar st (some r) env).2 =
        { st with fallos := st.fallos + 1 }) := by
  refine ⟨rfl, ?_⟩
  intro h
  unfold decodificar at h ⊢
  revert h
  cases decodificarLista env preprocesar_variantes <;> intro h
  · rfl
  · cases h

/-- Witness for the C10 theorem: the pure-noise reader misses and `fallos`
goes from 0 to 1. -/
theorem decodificar_none_sin_contadores_witness :
    decodificar { exitos := 0, fallos := 0 } none envLecturaRuido =
      (none, { exitos := 0, fallos := 0 }) ∧
    (decodificar { exitos := 0, fallos := 0 } (some 1) envLecturaRuido).2 =
      { exitos := 0, fallos := 0 + 1 } :=
  ⟨(decodificar_none_sin_contadores { exitos := 0, fallos := 0 }
      envLecturaRuido 1).1,
    (decodificar_none_sin_contadores { exitos := 0, fallos := 0 }
      envLecturaRuido 1).2 (by decide)⟩

/-- C3: for every detected box with `w > 0`, `h > 0`, the ROI extension
returns the box whose top edge is `max 0 (y - 20% of h)`, whose left edge is
`max 0 (x - 10% of w)`, whose width adds a 10% lateral margin of `w` on each
side clipped to the image, and whose height is the original height plus 100%
of `h` downward plus the 20% top margin, clipped to the bottom image edge;
in particular, whenever the bottom edge does not clip, the extended height
is at least `2 * h`. -/
theorem extender_roi_extiende (x y w h alto ancho : Int) (hw : 0 < w)
    (hh : 0 < h) :
    extender_roi_con_texto (x, y, w, h) alto ancho =
      (max 0 (x - w * 10 / 100), max 0 (y - h * 20 / 100),
        min (ancho - max 0 (x - w * 10 / 100)) (w + 2 * (w * 10 / 100)),
        min (h + h + h * 20 / 100) (alto - max 0 (y - h * 20 / 100))) ∧
    (h + h + h * 20 / 100 ≤ alto - max 0 (y - h * 20 / 100) →
      2 * h ≤ (extender_roi_con_texto (x, y, w, h) alto ancho).2.2.2) := by
  have h100 : h * 100 / 100 = h := Int.mul_ediv_cancel h (by norm_num)
  have hnn : 0 ≤ h * 20 / 100 :=
    Int.ediv_nonneg (by positivity) (by norm_num)
  have hcond : ¬(h ≤ 0 ∨ w ≤ 0) := by push_neg; exact ⟨hh, hw⟩
  have heq : extender_roi_con_texto (x, y, w, h) alto ancho =
      (max 0 (x - w * 10 / 100), max 0 (y - h * 20 / 100),
        min (ancho - max 0 (x - w * 10 / 100)) (w + 2 * (w * 10 / 100)),
        min (h + h * 100 / 100 + h * 20 / 100)
          (alto - max 0 (y - h * 20 / 100))) := by
    unfold extender_roi_con_texto
    dsimp only
    rw [if_neg hcond]
  rw [h100] at heq
  refine ⟨heq, fun hclip => ?_⟩
  rw [heq]
  have : min (h + h + h * 20 / 100) (alto - max 0 (y - h * 20 / 100)) =
      h + h + h * 20 / 100 := min_eq_left hclip
  simp only [this]
  omega

/-- Witness for the C3 theorem at the concrete box of the source's own
`test_extension_roi` (box (150, 100, 300, 40) in a 300x600 image). -/
theorem extender_roi_extiende_witness :
    (0 : Int) < 300 ∧ (0 : Int) < 40 ∧
    (extender_roi_con_texto (150, 100, 300, 40) 300 600 =
      (max 0 (150 - 300 * 10 / 100), max 0 (100 - 40 * 20 / 100),
        min (600 - max 0 (150 - 300 * 10 / 100)) (300 + 2 * (300 * 10 / 100)),
        min (40 + 40 + 40 * 20 / 100) (300 - max 0 (100 - 40 * 20 / 100))) ∧
      ((40 : Int) + 40 + 40 * 20 / 100 ≤ 300 - max 0 (100 - 40 * 20 / 100) →
        2 * 40 ≤ (extender_roi_con_texto (150, 100, 300, 40) 300 600).2.2.2)) :=
  ⟨by decide, by decide,
    extender_roi_extiende 150 100 300 40 300 600 (by decide) (by decide)⟩

/-- Any detection produced by the pyzbar strategy carries the fixed 0.95
confidence and the `PYZBAR_DIRECTO` tag. -/
theorem detectar_con_pyzbar_confianza (env : EnvDetector)
    (d : DeteccionBarras) (h : detectar_con_pyzbar env = some d) :
    d.confianza = 19 / 20 ∧
    d.estrategia_usada = EstrategiaDeteccion.PYZBAR_DIRECTO := by
  unfold detectar_con_pyzbar at h
  revert h
  cases env.pyzbarPoligono with
  | none => intro h; cases h
  | some puntos =>
      dsimp only
      cases (puntos.map Prod.fst).min? <;>
        cases (puntos.map Prod.fst).max? <;>
        cases (puntos.map Prod.snd).min? <;>
        cases (puntos.map Prod.snd).max? <;>
        intro h <;>
        first
        | cases h
        | (dsimp only at h
           split at h
           · cases h; exact ⟨rfl, rfl⟩
           · cases h)

/-- Any detection produced by the gradient strategy carries the
`GRADIENTE_VERTICAL` tag and passed the internal strict gate. -/
theorem detectar_con_gradientes_etiqueta (env : EnvDetector)
    (d : DeteccionBarras) (h : detectar_con_gradientes env = some d) :
    d.estrategia_usada = EstrategiaDeteccion.GRADIENTE_VERTICAL ∧
    min_confianza < d.confianza := by
  unfold detectar_con_gradientes at h
  revert h
  cases env.gradientesMejor with
  | none => intro h; cases h
  | some par =>
      dsimp only
      intro h
      split at h
      · cases h
        next hgate => exact ⟨rfl, hgate⟩
      · cases h

/-- A strategy result surviving `filtroUmbral` cleared the threshold. -/
theorem filtroUmbral_confianza (env : EnvDetector)
    (g : EnvDetector → Option DeteccionBarras) (d : DeteccionBarras)
    (h : filtroUmbral env g = some d) : min_confianza ≤ d.confianza := by
  unfold filtroUmbral at h
  revert h
  cases g env with
  | none => intro h; cases h
  | some d0 =>
      dsimp only
      intro h
      split at h
      · cases h
        next hth => exact hth
      · cases h

/-- First-hit searches preserve pointwise guarantees. -/
theorem findSomePred {α β : Type} (f : α → Option β) (P : β → Prop)
    (hf : ∀ a b, f a = some b → P b) :
    ∀ (l : List α) (b : β), l.findSome? f = some b → P b := by
  intro l
  induction l with
  | nil => intro b h; simp [List.findSome?] at h
  | cons a resto ih =>
      intro b h
      rw [List.findSome?] at h
      revert h
      cases hfa : f a with
      | none => exact ih b
      | some b0 =>
          intro h
          cases h
          exact hf a _ hfa

/-- The strategy-4 tail of `detectar` equals a first-hit search over the
one-strategy tail of the cascade. -/
theorem detectarDesdeContornos_spec (env : EnvDetector) (st : DetectorStats) :
    (detectarDesdeContornos env st).1 =
      [detectar_con_contornos].findSome? (filtroUmbral env) := by
  unfold detectarDesdeContornos
  rw [List.findSome?]
  unfold filtroUmbral
  cases detectar_con_contornos env with
  | none => rfl
  | some d =>
      dsimp only
      by_cases hth : min_confianza ≤ d.confianza <;> simp [hth, List.findSome?]

/-- The strategy-3 tail of `detectar` equals a first-hit search over the
two-strategy tail of the cascade. -/
theorem detectarDesdeProyecciones_spec (env : EnvDetector)
    (st : DetectorStats) :
    (detectarDesdeProyecciones env st).1 =
      [detectar_con_proyecciones,
        detectar_con_contornos].findSome? (filtroUmbral env) := by
  unfold detectarDesdeProyecciones
  rw [List.findSome?]
  rw [show filtroUmbral env detectar_con_proyecciones =
    (match detectar_con_proyecciones env with
     | some d => if min_confianza ≤ d.confianza then some d else none
     | none => none) from rfl]
  cases detectar_con_proyecciones env with
  | none => exact detectarDesdeContornos_spec env st
  | some d =>
      dsimp only
      by_cases hth : min_confianza ≤ d.confianza <;>
        simp [hth, detectarDesdeContornos_spec env st]

/-- The strategy-2 tail of `detectar` equals a first-hit search over the
three-strategy tail of the cascade. -/
theorem detectarDesdeGradientes_spec (env : EnvDetector)
    (st : DetectorStats) :
    (detectarDesdeGradientes env st).1 =
      [detectar_con_gradientes, detectar_con_proyecciones,
        detectar_con_contornos].findSome? (filtroUmbral env) := by
  unfold detectarDesdeGradientes
  rw [List.findSome?]
  rw [show filtroUmbral env detectar_con_gradientes =
    (match detectar_con_gradientes env with
     | some d => if min_confianza ≤ d.confianza then some d else none
     | none => none) from rfl]
  cases detectar_con_gradientes env with
  | none => exact detectarDesdeProyecciones_spec env st
  | some d =>
      dsimp only
      by_cases hth : min_confianza ≤ d.confianza <;>
        simp [hth, detectarDesdeProyecciones_spec env st]

/-- `detectar` computes exactly the spec-side cascade. -/
theorem detectar_eq_spec (env : EnvDetector) (st : DetectorStats) :
    (detectar env st).1 = detectarSpec env := by
  unfold detectar detectarSpec
  cases hv : env.imagenVacia with
  | true => rfl
  | false =>
      cases detectar_con_pyzbar env with
      | some d => rfl
      | none => exact detectarDesdeGradientes_spec env st

/-- C5: `detectar` is exactly the ordered short-circuiting cascade
pyzbar → gradients → projections → contours (`detectarSpec`); a pyzbar hit
is returned with confidence fixed at 0.95 regardless of the other
strategies; any returned detection either is the 0.95 pyzbar hit or cleared
the 0.4 minimum-confidence threshold; `detectar_rapido` returns only a
pyzbar hit or a gradient result accepted at the relaxed 0.3 threshold. -/
theorem detectar_cascada_ordenada (env : EnvDetector) (st : DetectorStats) :
    (detectar env st).1 = detectarSpec env ∧
    (∀ d, detectar_con_pyzbar env = some d →
      d.confianza = 19 / 20 ∧
      d.estrategia_usada = EstrategiaDeteccion.PYZBAR_DIRECTO ∧
      (env.imagenVacia = false → (detectar env st).1 = some d)) ∧
    (∀ d, (detectar env st).1 = some d →
      d.confianza = 19 / 20 ∨ min_confianza ≤ d.confianza) ∧
    (∀ d, detectar_rapido env = some d →
      d.estrategia_usada = EstrategiaDeteccion.PYZBAR_DIRECTO ∨
        (d.estrategia_usada = EstrategiaDeteccion.GRADIENTE_VERTICAL ∧
          (3 : ℚ) / 10 ≤ d.confianza)) := by
  refine ⟨detectar_eq_spec env st, ?_, ?_, ?_⟩
  · intro d hd
    obtain ⟨hc, he⟩ := detectar_con_pyzbar_confianza env d hd
    refine ⟨hc, he, fun hv => ?_⟩
    simp [detectar, hv, hd]
  · intro d hd
    rw [detectar_eq_spec env st] at hd
    unfold detectarSpec at hd
    revert hd
    cases env.imagenVacia with
    | true => intro hd; cases hd
    | false =>
        cases hp : detectar_con_pyzbar env with
        | some d0 =>
            intro hd
            cases hd
            exact Or.inl (detectar_con_pyzbar_confianza env _ hp).1
        | none =>
            intro hd
            exact Or.inr
              (findSomePred (filtroUmbral env)
                (fun d => min_confianza ≤ d.confianza)
                (fun g d hg => filtroUmbral_confianza env g d hg) _ d hd)
  · intro d hd
    unfold detectar_rapido at hd
    revert hd
    cases hp : detectar_con_pyzbar env with
    | some d0 =>
        intro hd
        cases hd
        exact Or.inl (detectar_con_pyzbar_confianza env _ hp).2
    | none =>
        dsimp only
        cases hg : detectar_con_gradientes env with
        | none => intro hd; cases hd
        | some d0 =>
            dsimp only
            intro hd
            split at hd
            · cases hd
              next hth =>
                exact Or.inr
                  ⟨(detectar_con_gradientes_etiqueta env _ hg).1, hth⟩
            · cases hd

/-- Witness for the C5 theorem: a concrete polygon hit on a 1000x1000 image
is returned by the cascade with confidence 0.95. -/
theorem detectar_cascada_ordenada_witness :
    detectar_con_pyzbar envDetectorPyzbar = some dPyzbarEj ∧
    dPyzbarEj.confianza = 19 / 20 ∧
    dPyzbarEj.estrategia_usada = EstrategiaDeteccion.PYZBAR_DIRECTO ∧
    (envDetectorPyzbar.imagenVacia = false →
      (detectar envDetectorPyzbar
        { detecciones_exitosas := 0, detecciones_fallidas := 0 }).1 =
        some dPyzbarEj) :=
  ⟨rfl,
    (detectar_cascada_ordenada envDetectorPyzbar
      { detecciones_exitosas := 0, detecciones_fallidas := 0 }).2.1 dPyzbarEj
      rfl⟩

/-- The notification loop is a pointwise map over the observer list. -/
theorem notificar_observers_eq_map (obs : List ObserverCallback)
    (frame : Nat) :
    notificar_observers obs frame =
      obs.map fun o => invocar_observer o frame := by
  induction obs with
  | nil => rfl
  | cons o resto ih => simp [notificar_observers, ih]

/-- C8: `_notificar_observers` invokes every registered callback exactly once
in registration order (the invocation trace is the pointwise map over the
observer list, so it has one entry per observer, in order), and a callback
that throws is isolated: its exception is swallowed into a logged-error
entry and every observer after it is still invoked, the notification being a
total function that never raises. -/
theorem notificar_observers_aislado (observers : List ObserverCallback)
    (frame : Nat) :
    (notificar_observers observers frame =
      observers.map fun o => invocar_observer o frame) ∧
    (notificar_observers observers frame).length = observers.length ∧
    (∀ antes o despues, observers = antes ++ o :: despues →
      notificar_observers observers frame =
        notificar_observers antes frame ++
          invocar_observer o frame :: notificar_observers despues frame) := by
  refine ⟨notificar_observers_eq_map observers frame, ?_, ?_⟩
  · rw [notificar_observers_eq_map]
    simp
  · intro antes o despues hsplit
    subst hsplit
    simp [notificar_observers_eq_map]

/-- Witness for the C8 theorem: with a throwing observer in the middle of
three, the observers before and after it are still invoked in order. -/
theorem notificar_observers_aislado_witness :
    ([obsOkEj, obsErrorEj, obsOkEj] : List ObserverCallback) =
      [obsOkEj] ++ obsErrorEj :: [obsOkEj] ∧
    notificar_observers [obsOkEj, obsErrorEj, obsOkEj] 0 =
      notificar_observers [obsOkEj] 0 ++
        invocar_observer obsErrorEj 0 :: notificar_observers [obsOkEj] 0 :=
  ⟨rfl,
    (notificar_observers_aislado [obsOkEj, obsErrorEj, obsOkEj] 0).2.2
      [obsOkEj] obsErrorEj [obsOkEj] rfl⟩
